import Mathlib

/-!
Verification of the brainstorming-viz notebook (src/brainstorming-viz/Untitled.ipynb).

The notebook is a single straight-line script:
  output_file("toolbar.html")
  source = ColumnDataSource(data=dict(x=..., y=..., desc=..., imgs=...))
  hover = HoverTool(tooltips="""...""")
  p = figure(plot_width=400, plot_height=400, tools=[hover], title="Mouse over the dots")
  p.circle('x', 'y', size=20, source=source)
  show(p)

We embed it as a sequence of state transformers over an explicit script state.
Library calls are opaque to the script; for the error-handling claim each call
is additionally given an oracle saying whether the external library raises,
and the script (which contains no try/except) is the plain monadic chain.
-/

namespace BViz

/-- A Python value as it appears in the notebook's data dict: either a number
or a string. -/
inductive Value where
  | int : Int → Value
  | str : String → Value
deriving DecidableEq, Repr

/-- The columnar data source: an association list from column name to the
column's list of values, in the order the dict literal gives them. -/
structure ColumnDataSource where
  data : List (String × List Value)
deriving DecidableEq, Repr

/-- Look a column up by name; a missing column is the empty list. -/
def ColumnDataSource.column (cds : ColumnDataSource) (name : String) : List Value :=
  (((cds.data.find? (fun kv => kv.1 == name)).map Prod.snd)).getD []

/-- Whether a column of the given name exists in the data source. -/
def ColumnDataSource.hasColumn (cds : ColumnDataSource) (name : String) : Bool :=
  cds.data.any (fun kv => kv.1 == name)

/-- Row `i` of the data source as the tuple (x, y, desc, imgs), when every one
of the four columns has an entry at `i`. -/
def ColumnDataSource.rowAt (cds : ColumnDataSource) (i : Nat) :
    Option (Value × Value × Value × Value) :=
  match (cds.column "x")[i]?, (cds.column "y")[i]?,
        (cds.column "desc")[i]?, (cds.column "imgs")[i]? with
  | some a, some b, some c, some d => some (a, b, c, d)
  | _, _, _, _ => none

/-- Swap the entries of a list at positions `i` and `j` (identity when either
index is out of range). -/
def swapList {α : Type} (l : List α) (i j : Nat) : List α :=
  match l[i]?, l[j]? with
  | some a, some b => (l.set i b).set j a
  | _, _ => l

/-- Swap rows `i` and `j` of the data source: every column is swapped at the
same pair of positions. -/
def ColumnDataSource.swapRows (cds : ColumnDataSource) (i j : Nat) : ColumnDataSource :=
  ⟨cds.data.map (fun kv => (kv.1, swapList kv.2 i j))⟩

/-- The hover tool carries the tooltip markup template. -/
structure HoverTool where
  tooltips : String
deriving DecidableEq, Repr

/-- A tool attached to a figure; the script only ever attaches a hover tool. -/
inductive Tool where
  | hover : HoverTool → Tool
deriving DecidableEq, Repr

/-- A circular-marker renderer: the column names bound to x and y, the marker
size, and the data source it renders. -/
structure CircleRenderer where
  xField : String
  yField : String
  size : Nat
  src : ColumnDataSource
deriving DecidableEq, Repr

/-- The figure: canvas size, tools, title and attached renderers. -/
structure Figure where
  plot_width : Nat
  plot_height : Nat
  tools : List Tool
  title : String
  renderers : List CircleRenderer
deriving DecidableEq, Repr

/-- `p.circle(xf, yf, size=s, source=src)` appends one circle renderer to the
figure. -/
def Figure.circle (p : Figure) (xf yf : String) (s : Nat) (src : ColumnDataSource) :
    Figure :=
  { p with renderers := p.renderers ++ [⟨xf, yf, s, src⟩] }

/-- An external effect the script can request: a file write or a network
fetch. The embedded script only ever emits file writes; network fetches exist
in the type so that their absence is a statement, not a typing accident. -/
inductive Effect where
  | fileWrite : String → Effect
  | networkFetch : String → Effect
deriving DecidableEq, Repr

/-- Whether an effect is a network access. -/
def Effect.isNetworkFetch : Effect → Bool
  | .networkFetch _ => true
  | .fileWrite _ => false

/-- The script's state: the configured output target, the local variables
`source`, `hover`, `p`, and the trace of external effects requested so far. -/
structure ScriptState where
  outputTarget : Option String
  src : Option ColumnDataSource
  hov : Option HoverTool
  p : Option Figure
  effects : List Effect
deriving DecidableEq, Repr

/-- The state before any statement runs. -/
def initialState : ScriptState := ⟨none, none, none, none, []⟩

/-- External input a run could in principle receive: CLI flags, environment
variables, configuration files. The script reads none of it. -/
structure Env where
  cliFlags : List String
  envVars : List (String × String)
  configFiles : List (String × String)

/-- The literal x data of the notebook. -/
def xData : List Value := [.int 1, .int 2, .int 3, .int 4, .int 5]

/-- The literal y data of the notebook. -/
def yData : List Value := [.int 2, .int 5, .int 8, .int 2, .int 7]

/-- The literal desc data of the notebook. -/
def descData : List Value := [.str "A", .str "b", .str "C", .str "d", .str "E"]

/-- The five literal image URLs of the notebook. -/
def imgUrls : List String :=
  [ "http://bokeh.pydata.org/static/snake.jpg",
    "http://bokeh.pydata.org/static/snake2.png",
    "http://bokeh.pydata.org/static/snake3D.png",
    "http://bokeh.pydata.org/static/snake4_TheRevenge.png",
    "http://bokeh.pydata.org/static/snakebite.jpg" ]

/-- The literal imgs data of the notebook. -/
def imgsData : List Value := imgUrls.map Value.str

/-- The data dict passed to ColumnDataSource, in source order. -/
def sourceData : List (String × List Value) :=
  [("x", xData), ("y", yData), ("desc", descData), ("imgs", imgsData)]

/-- The `source` variable of the script. -/
def source : ColumnDataSource := ⟨sourceData⟩

/-- The tooltip template string, exactly as the triple-quoted literal in the
notebook (including its leading newline and trailing indentation). -/
def tooltipTemplate : String :=
  "\n" ++
  "        <div>\n" ++
  "            <div>\n" ++
  "                <img\n" ++
  "                    src=\"@imgs\" height=\"42\" alt=\"@imgs\" width=\"42\"\n" ++
  "                    style=\"float: left; margin: 0px 15px 15px 0px;\"\n" ++
  "                    border=\"2\"\n" ++
  "                ></img>\n" ++
  "            </div>\n" ++
  "            <div>\n" ++
  "                <span style=\"font-size: 17px; font-weight: bold;\">@desc</span>\n" ++
  "                <span style=\"font-size: 15px; color: #966;\">[$index]</span>\n" ++
  "            </div>\n" ++
  "            <div>\n" ++
  "                <span style=\"font-size: 15px;\">Location</span>\n" ++
  "                <span style=\"font-size: 10px; color: #696;\">($x, $y)</span>\n" ++
  "            </div>\n" ++
  "        </div>\n" ++
  "        "

/-- The `hover` variable of the script. -/
def hover : HoverTool := ⟨tooltipTemplate⟩

/-- Statement 1, `output_file("toolbar.html")`: record the output target. -/
def stepOutputFile (st : ScriptState) : ScriptState :=
  { st with outputTarget := some "toolbar.html" }

/-- Statement 2, `source = ColumnDataSource(data=dict(...))`: bind the data
source variable to the literal columnar data. -/
def stepSource (st : ScriptState) : ScriptState :=
  { st with src := some source }

/-- Statement 3, `hover = HoverTool(tooltips="""...""")`: bind the hover tool
variable. -/
def stepHover (st : ScriptState) : ScriptState :=
  { st with hov := some hover }

/-- Statement 4, `p = figure(plot_width=400, plot_height=400, tools=[hover],
title="Mouse over the dots")`: build the figure from the hover variable. -/
def stepFigure (st : ScriptState) : ScriptState :=
  let figTools : List Tool :=
    match st.hov with
    | some h => [Tool.hover h]
    | none => []
  { st with p := some ⟨400, 400, figTools, "Mouse over the dots", []⟩ }

/-- Statement 5, `p.circle('x', 'y', size=20, source=source)`: attach one
circle renderer bound to columns 'x' and 'y' of the source variable. -/
def stepCircle (st : ScriptState) : ScriptState :=
  match st.p, st.src with
  | some fig, some s => { st with p := some (fig.circle "x" "y" 20 s) }
  | _, _ => st

/-- Statement 6, `show(p)`: request the single external effect, the write of
the HTML artifact to the configured output target. -/
def stepShow (st : ScriptState) : ScriptState :=
  match st.p, st.outputTarget with
  | some _, some path => { st with effects := st.effects ++ [Effect.fileWrite path] }
  | _, _ => st

/-- An error the external library or runtime may raise at one of the six
library calls. -/
inductive PyError where
  | ioError : String → PyError
  | valueError : String → PyError
  | importError : String → PyError
deriving DecidableEq, Repr

/-- Oracle for the external library: for each of the six calls, whether it
raises (and which error) or succeeds. The script contains no try/except, so
its behavior under the oracle is the plain sequential chain below. -/
structure LibOutcome where
  outputFileErr : Option PyError
  cdsErr : Option PyError
  hoverErr : Option PyError
  figureErr : Option PyError
  circleErr : Option PyError
  showErr : Option PyError
deriving DecidableEq, Repr

/-- The oracle under which every library call succeeds. -/
def okLib : LibOutcome := ⟨none, none, none, none, none, none⟩

/-- Run one library call under the oracle: raise its error if the oracle says
so, otherwise perform its state transformation. -/
def withLib (e : Option PyError) (f : ScriptState → ScriptState) (st : ScriptState) :
    Except PyError ScriptState :=
  match e with
  | some err => .error err
  | none => .ok (f st)

/-- The whole script, run under a library oracle and an external environment.
The environment parameter is never read: the source consults no CLI flags,
environment variables or configuration files. Statements run in source order
and an uncaught error aborts the rest of the chain. -/
def runScript (lib : LibOutcome) (_env : Env) : Except PyError ScriptState :=
  withLib lib.outputFileErr stepOutputFile initialState >>= fun st =>
  withLib lib.cdsErr stepSource st >>= fun st =>
  withLib lib.hoverErr stepHover st >>= fun st =>
  withLib lib.figureErr stepFigure st >>= fun st =>
  withLib lib.circleErr stepCircle st >>= fun st =>
  withLib lib.showErr stepShow st

/-- The first error the oracle injects, in statement order. -/
def LibOutcome.firstError (lib : LibOutcome) : Option PyError :=
  (((((lib.outputFileErr.orElse fun _ => lib.cdsErr).orElse
      fun _ => lib.hoverErr).orElse
      fun _ => lib.figureErr).orElse
      fun _ => lib.circleErr).orElse
      fun _ => lib.showErr)

/-- An environment with no flags, variables or files. -/
def env0 : Env := ⟨[], [], []⟩

/-- The states after each successive statement of the no-error run. -/
def s1 : ScriptState := stepOutputFile initialState

/-- State after statement 2. -/
def s2 : ScriptState := stepSource s1

/-- State after statement 3. -/
def s3 : ScriptState := stepHover s2

/-- State after statement 4. -/
def s4 : ScriptState := stepFigure s3

/-- State after statement 5. -/
def s5 : ScriptState := stepCircle s4

/-- State after statement 6: the final state of the no-error run. -/
def finalState : ScriptState := stepShow s5

/-- The multiset of markers the circle renderer produces from a data source:
one independent marker per row, carrying the row's full tuple. -/
def renderedMarkers (cds : ColumnDataSource) : Multiset (Value × Value × Value × Value) :=
  ((List.range (cds.column "x").length).filterMap (fun i => cds.rowAt i) : List _)

/-- Characters allowed inside a tooltip placeholder name. -/
def isIdentChar (c : Char) : Bool := c.isAlphanum || c == '_'

/-- Scan a character list for tooltip placeholders: each occurrence of '@' or
'$' together with the identifier that follows it. -/
def scanRefs : List Char → List (Char × String)
  | [] => []
  | c :: rest =>
    if c == '@' || c == '$' then
      (c, String.mk (rest.takeWhile isIdentChar)) :: scanRefs rest
    else
      scanRefs rest

/-- The column placeholders (after '@') of the tooltip template, in order of
occurrence. -/
def fieldRefs : List String :=
  (scanRefs tooltipTemplate.toList).filterMap
    (fun pr => if pr.1 == '@' then some pr.2 else none)

/-- The special-variable placeholders (after '$') of the tooltip template, in
order of occurrence. -/
def specialRefs : List String :=
  (scanRefs tooltipTemplate.toList).filterMap
    (fun pr => if pr.1 == '$' then some pr.2 else none)

set_option maxRecDepth 10000

/-- C1: in the record set the script constructs, the four field sequences x,
y, desc and imgs all have length 5, and these are exactly the four fields. -/
theorem column_lengths_all_five :
    (source.column "x").length = 5 ∧ (source.column "y").length = 5 ∧
    (source.column "desc").length = 5 ∧ (source.column "imgs").length = 5 ∧
    source.data.map Prod.fst = ["x", "y", "desc", "imgs"] := by decide

/-- C2: for every index i from 0 to 4, row i of the record set is exactly the
tuple (x[i], y[i], desc[i], imgs[i]) of the literal sample data, with no
reordering of any field relative to another. -/
theorem rows_align_with_literals :
    source.rowAt 0 = some (.int 1, .int 2, .str "A",
      .str "http://bokeh.pydata.org/static/snake.jpg") ∧
    source.rowAt 1 = some (.int 2, .int 5, .str "b",
      .str "http://bokeh.pydata.org/static/snake2.png") ∧
    source.rowAt 2 = some (.int 3, .int 8, .str "C",
      .str "http://bokeh.pydata.org/static/snake3D.png") ∧
    source.rowAt 3 = some (.int 4, .int 2, .str "d",
      .str "http://bokeh.pydata.org/static/snake4_TheRevenge.png") ∧
    source.rowAt 4 = some (.int 5, .int 7, .str "E",
      .str "http://bokeh.pydata.org/static/snakebite.jpg") := by decide

/-- C3: the script is deterministic and input-free: under any library oracle
the run is the same function of nothing — two runs under arbitrary different
environments (CLI flags, environment variables, configuration files) produce
identical results, and the no-error run produces exactly the one concrete
final artifact-request state. -/
theorem run_deterministic_and_input_free (lib : LibOutcome) (envA envB : Env) :
    runScript lib envA = runScript lib envB ∧
    runScript okLib envA = Except.ok finalState :=
  ⟨rfl, rfl⟩

/-- C4: swapping the full row tuples at any two positions i and j of the
record set leaves the multiset of markers produced by the circle renderer
unchanged, since every row is rendered as an independent marker. -/
theorem swap_rows_preserves_markers :
    ∀ i j : Fin 5,
      renderedMarkers (source.swapRows i.val j.val) = renderedMarkers source := by
  decide

/-- C5: the no-error run requests exactly one output artifact, the HTML file
"toolbar.html" in the working directory, and names no other output file. -/
theorem single_output_artifact :
    finalState.effects = [Effect.fileWrite "toolbar.html"] ∧
    finalState.outputTarget = some "toolbar.html" := by decide

/-- C6: after statement 2 constructs the record set, no later statement
(tooltip construction, figure construction, renderer binding, output emission)
modifies any of its field sequences: every subsequent state carries the
construction-time value, and the data bound to the renderer at emission time
is that same value. -/
theorem source_unmodified_after_construction :
    (([s2, s3, s4, s5, finalState].all (fun st => st.src == some source)) = true) ∧
    finalState.p.map Figure.renderers = some [⟨"x", "y", 20, source⟩] := by decide

/-- C7: the figure has width 400, height 400, title "Mouse over the dots",
its tool list is exactly the one hover tool carrying the tooltip template, and
exactly one circle renderer of size 20 is attached, bound to columns 'x' and
'y' of the record set. -/
theorem figure_configuration :
    finalState.p = some ⟨400, 400, [Tool.hover ⟨tooltipTemplate⟩],
      "Mouse over the dots", [⟨"x", "y", 20, source⟩]⟩ := rfl

/-- C8: whenever the library oracle makes some call raise, the script's run
result is exactly that first error, unchanged — nothing is caught or
transformed, and no final state (hence no later step, no emitted artifact)
is produced. -/
theorem errors_propagate_unchanged (lib : LibOutcome) (env : Env) (e : PyError)
    (h : lib.firstError = some e) : runScript lib env = Except.error e := by
  obtain ⟨o1, o2, o3, o4, o5, o6⟩ := lib
  cases o1 <;> cases o2 <;> cases o3 <;> cases o4 <;> cases o5 <;> cases o6 <;>
    simp_all [LibOutcome.firstError, runScript, withLib, Option.orElse, Bind.bind,
      Except.bind]

/-- Witness for the error-propagation theorem: a run whose second library call
(the ColumnDataSource construction) raises a ValueError aborts with exactly
that error. -/
theorem errors_propagate_unchanged_witness :
    (LibOutcome.firstError ⟨none, some (PyError.valueError "bad columns"),
        none, none, none, none⟩ = some (PyError.valueError "bad columns")) ∧
    runScript ⟨none, some (PyError.valueError "bad columns"),
        none, none, none, none⟩ env0
      = Except.error (PyError.valueError "bad columns") :=
  ⟨by decide, errors_propagate_unchanged _ env0 _ (by decide)⟩

/-- C9: the script itself performs no network access: the effect trace of the
no-error run is the single HTML file write and contains no network fetch; each
of the five external image URLs occurs as string data in the imgs column; the
other columns hold no URL; and the tooltip markup refers to the images only
through its imgs column placeholder. -/
theorem no_network_access :
    finalState.effects = [Effect.fileWrite "toolbar.html"] ∧
    (finalState.effects.all (fun e => ! e.isNetworkFetch)) = true ∧
    (imgUrls.all (fun u => (source.column "imgs").contains (Value.str u))) = true ∧
    ((source.data.filter (fun kv => kv.1 != "imgs")).all
      (fun kv => kv.2.all (fun v =>
        match v with
        | .str s => ! s.startsWith "http"
        | .int _ => true))) = true ∧
    fieldRefs.contains "imgs" = true := by decide

/-- C10: every column placeholder of the tooltip template (the two @imgs and
the one @desc) names a field of the bound record set, the remaining
placeholders are exactly the library specials index, x and y, and for every
row index i below 5 each column placeholder resolves to a value. -/
theorem tooltip_placeholders_resolve :
    fieldRefs = ["imgs", "imgs", "desc"] ∧
    specialRefs = ["index", "x", "y"] ∧
    (fieldRefs.all (fun f => source.hasColumn f)) = true ∧
    ((List.range 5).all (fun i =>
      fieldRefs.all (fun f => ((source.column f)[i]?).isSome))) = true := by decide

end BViz
